import Mathlib

/-!
Verification development for the fashion-finder repository.

The Python source is shallowly embedded: `Decimal` monetary values become `ℚ`
(Python's `decimal` addition/subtraction/multiplication are exact at the
magnitudes involved; division is rounded to 28 significant digits by the
default context — we model it as exact rational division, noted where it
matters), Python floats also become `ℚ`, `Optional[X]` becomes `Option X`,
and `async` functions whose awaited collaborators are pure are embedded as
pure functions, with the resolved exchange-rate mapping passed as an explicit
parameter.  Strings are handled as lists of characters; `str.lower`/`upper`
are modelled on ASCII letters, which covers every string constant appearing
in the embedded code.
-/

/-! ### Character and string helpers (Python `str` operations) -/

/-- ASCII lower-casing of one character (model of `str.lower` per character). -/
def lowerChar (c : Char) : Char :=
  if 'A' ≤ c ∧ c ≤ 'Z' then Char.ofNat (c.toNat + 32) else c

/-- ASCII upper-casing of one character (model of `str.upper` per character). -/
def upperChar (c : Char) : Char :=
  if 'a' ≤ c ∧ c ≤ 'z' then Char.ofNat (c.toNat - 32) else c

/-- Lower-case a character list. -/
def lowerL (s : List Char) : List Char := s.map lowerChar

/-- Upper-case a character list. -/
def upperL (s : List Char) : List Char := s.map upperChar

/-- `startsW pat text` is true when `pat` is a prefix of `text`. -/
def startsW : List Char → List Char → Bool
  | [], _ => true
  | _ :: _, [] => false
  | a :: as, b :: bs => a == b && startsW as bs

/-- `hasSub pat text` models Python's substring test `pat in text`. -/
def hasSub (pat : List Char) : List Char → Bool
  | [] => pat.isEmpty
  | c :: rest => startsW pat (c :: rest) || hasSub pat rest

/-- Accumulator-based splitting on whitespace, model of Python `str.split()`. -/
def splitWsAux : List Char → List Char → List (List Char)
  | [], cur => if cur.isEmpty then [] else [cur.reverse]
  | c :: cs, cur =>
    if c.isWhitespace then
      if cur.isEmpty then splitWsAux cs [] else cur.reverse :: splitWsAux cs []
    else splitWsAux cs (c :: cur)

/-- Split a character list on runs of whitespace (Python `str.split()`). -/
def splitWs (cs : List Char) : List (List Char) := splitWsAux cs []

/-- Python truthiness for an optional string: `None` and `""` are falsy. -/
def asOpt : Option String → Option String
  | none => none
  | some s => if s = "" then none else some s

/-- `(x or "")` lowered to characters: `None` becomes the empty list. -/
def lowOpt : Option String → List Char
  | none => []
  | some s => lowerL s.data

/-! ### Rounding (Python `Decimal.quantize(Decimal("0.01"), ROUND_HALF_UP)`) -/

/-- Round a rational to 2 decimal places, ties away from zero
(`ROUND_HALF_UP` of Python's `decimal`). -/
def round2 (q : ℚ) : ℚ :=
  if 0 ≤ q then (⌊q * 100 + 1/2⌋ : ℚ) / 100 else -((⌊-q * 100 + 1/2⌋ : ℚ) / 100)

/-- A rational is a whole number of hundredths (a value already rounded
to 2 decimal places). -/
def Is2dp (q : ℚ) : Prop := ∃ n : ℤ, q = (n : ℚ) / 100

/-! ### Cost calculator data model (`src/shops/base.py`, `src/core/cost_calculator.py`) -/

/-- Region of a shop (`ShopRegion` in `src/shops/base.py`). -/
inductive ShopRegion
  | SE
  | EU
  | NON_EU
deriving DecidableEq, Repr

/-- The fields of `ShopConfig` used by the cost calculator. -/
structure ShopConfig where
  region : ShopRegion
  currency : String
  free_shipping_threshold : Option ℚ
  base_shipping_cost : Option ℚ
  ships_to_sweden : Bool
deriving DecidableEq, Repr

/-- The fields of a `ProductResult` read by the cost calculator. -/
structure CostProduct where
  price : ℚ
  currency : String
  category : Option String
deriving DecidableEq, Repr

/-- The monetary output fields written by `calculate_total_cost`
(`shipping_cost`, `customs_cost`, `vat_cost`, `total_cost`, `total_cost_sek`). -/
structure CostOutputs where
  shipping_cost : ℚ
  customs_cost : ℚ
  vat_cost : ℚ
  total_cost : ℚ
  total_cost_sek : ℚ
deriving DecidableEq, Repr

/-- Static fallback exchange-rate table `DEFAULT_EXCHANGE_RATES`
(units of SEK per unit of the given currency). -/
def DEFAULT_EXCHANGE_RATES (c : String) : Option ℚ :=
  if c = "EUR" then some (23/2)
  else if c = "USD" then some (21/2)
  else if c = "GBP" then some (27/2)
  else if c = "SEK" then some 1
  else none

/-- `CostCalculator.get_exchange_rate` on the fallback path (no live API key,
empty cache).  Decimal division in the pivot branch is modelled as exact
rational division; the 28-significant-digit context rounding of `decimal`
does not affect any claim settled below. -/
def get_exchange_rate (from_c to_c : String) : ℚ :=
  if from_c = to_c then 1
  else if to_c = "SEK" then
    match DEFAULT_EXCHANGE_RATES from_c with
    | some r => r
    | none => 1
  else ((DEFAULT_EXCHANGE_RATES from_c).getD 1) / ((DEFAULT_EXCHANGE_RATES to_c).getD 1)

/-- `CostCalculator.convert_to_sek`. -/
def convert_to_sek (amount : ℚ) (from_currency : String) (rate : ℚ) : ℚ :=
  if from_currency = "SEK" then amount else round2 (amount * rate)

/-- `CostCalculator.calculate_shipping`.  Python evaluates
`if config.free_shipping_threshold and price >= config.free_shipping_threshold`,
so a threshold of `Decimal("0")` is falsy and skips the free-shipping test. -/
def calculate_shipping (price : ℚ) (config : ShopConfig) : ℚ :=
  if config.ships_to_sweden = false then 0
  else
    match config.free_shipping_threshold with
    | some t => if t ≠ 0 ∧ t ≤ price then 0 else (config.base_shipping_cost.getD 0)
    | none => config.base_shipping_cost.getD 0

/-- The customs-duty rate selection of `CostCalculator.calculate_customs`
(lines 159–168): keyword substring match on the lower-cased category, first
matching bucket wins, `CUSTOMS_RATES["default"]` otherwise.  Python's
`if category:` makes `None` and `""` take the default. -/
def customsRateFromCategory : Option String → ℚ
  | none => 5/100
  | some c =>
    if c = "" then 5/100
    else
      let cl := lowerL c.data
      if [("shirt" : String), "pants", "jacket", "dress", "coat"].any
          (fun k => hasSub k.data cl) then 12/100
      else if [("shoe" : String), "boot", "sneaker", "sandal"].any
          (fun k => hasSub k.data cl) then 8/100
      else if [("bag" : String), "belt", "watch", "jewelry"].any
          (fun k => hasSub k.data cl) then 4/100
      else 5/100

/-- `CostCalculator.calculate_customs`: returns `(customs_duty_eur, import_vat_eur)`. -/
def calculate_customs (price_eur shipping_eur : ℚ) (region : ShopRegion)
    (category : Option String) : ℚ × ℚ :=
  if region = ShopRegion.SE ∨ region = ShopRegion.EU then (0, 0)
  else
    let total_value := price_eur + shipping_eur
    let customs_duty :=
      if total_value ≤ 150 then 0
      else round2 (price_eur * customsRateFromCategory category)
    let import_vat := round2 ((total_value + customs_duty) * (25/100))
    (customs_duty, import_vat)

/-- The `price_eur` intermediate of `calculate_total_cost` (lines 200–205):
the product price converted to EUR, produced without rounding. -/
def price_eur_step (rates : String → String → ℚ) (p : CostProduct) : ℚ :=
  if p.currency = "EUR" then p.price else p.price * rates p.currency "EUR"

/-- The `shipping_eur` intermediate of `calculate_total_cost` (lines 200–206). -/
def shipping_eur_step (rates : String → String → ℚ) (p : CostProduct)
    (shipping : ℚ) : ℚ :=
  if p.currency = "EUR" then shipping else shipping * rates p.currency "EUR"

/-- `CostCalculator.calculate_total_cost`, with the resolved exchange-rate
mapping `rates from to` passed explicitly (it models what the awaited
`get_exchange_rate` calls return; the fallback instance is
`get_exchange_rate` above).  The unused `sek_to_eur` fetch of line 218 has no
effect and is omitted. -/
def calculate_total_cost (rates : String → String → ℚ) (p : CostProduct)
    (config : ShopConfig) : CostOutputs :=
  let rate := rates p.currency "SEK"
  let shipping := calculate_shipping p.price config
  let price_eur := price_eur_step rates p
  let shipping_eur := shipping_eur_step rates p shipping
  let cv := calculate_customs price_eur shipping_eur config.region p.category
  let customs := if p.currency = "EUR" then cv.1 else cv.1 * rates "EUR" p.currency
  let vat := if p.currency = "EUR" then cv.2 else cv.2 * rates "EUR" p.currency
  let total := p.price + shipping + customs + vat
  let total_sek := convert_to_sek total p.currency rate
  { shipping_cost := round2 shipping
    customs_cost := round2 customs
    vat_cost := round2 vat
    total_cost := round2 total
    total_cost_sek := total_sek }

/-! ### Relevance scoring data model (`src/shops/base.py`) -/

/-- The fields of a `ProductResult` read by `calculate_relevance`. -/
structure SProduct where
  name : String
  brand : Option String
  description : Option String
  category : Option String
  color : Option String
  sizes : List String
deriving DecidableEq, Repr

/-- `SearchQuery` (`src/shops/base.py`); `min_price`, `max_price`, `gender`
and `limit` are carried but unread by the scoring function. -/
structure SSearchQuery where
  query : String
  category : Option String
  brand : Option String
  color : Option String
  min_price : Option ℚ
  max_price : Option ℚ
  size : Option String
  gender : Option String
  style_tags : List String
  limit : Nat
deriving DecidableEq, Repr

/-- The query terms: whitespace-split, lower-cased, keeping terms of
length > 1 (line 216). -/
def queryTerms (q : SSearchQuery) : List (List Char) :=
  (splitWs (lowerL q.query.data)).filter (fun t => t.length > 1)

/-- The concatenated lower-case candidate text `product_text` (line 225):
name, brand, description and category joined by single spaces. -/
def productText (p : SProduct) : List Char :=
  lowerL p.name.data ++ [' '] ++ lowOpt p.brand ++ [' ']
    ++ lowOpt p.description ++ [' '] ++ lowOpt p.category

/-- Brand matching, weight 0.35 (lines 227–243). -/
def brandScore (p : SProduct) (q : SSearchQuery) : ℚ :=
  let pbl := lowOpt p.brand
  match asOpt q.brand with
  | some qb =>
    let qbl := lowerL qb.data
    if pbl.isEmpty = false then
      if qbl = pbl then 35/100
      else if hasSub qbl pbl || hasSub pbl qbl then 25/100
      else 0
    else 0
  | none =>
    (queryTerms q).foldl (fun acc term =>
      if hasSub term pbl then max acc (30/100)
      else if pbl.isEmpty = false ∧ hasSub term (productText p) then max acc (10/100)
      else acc) 0

/-- The fixed category synonym table (lines 247–257), looked up with
`dict.get(key, [key])`. -/
def catSynonyms (k : List Char) : List (List Char) :=
  if k = "hoodie".data then
    ["hoodie".data, "hooded".data, "pullover".data, "sweatshirt".data]
  else if k = "jacket".data then
    ["jacket".data, "coat".data, "blazer".data, "parka".data, "bomber".data]
  else if k = "pants".data then
    ["pants".data, "trousers".data, "jeans".data, "chinos".data]
  else if k = "shirt".data then
    ["shirt".data, "blouse".data, "top".data, "tee".data, "t-shirt".data]
  else if k = "shoes".data then
    ["shoes".data, "sneakers".data, "boots".data, "trainers".data, "footwear".data]
  else if k = "sweater".data then
    ["sweater".data, "jumper".data, "knit".data, "cardigan".data, "pullover".data]
  else if k = "dress".data then ["dress".data, "gown".data]
  else if k = "skirt".data then ["skirt".data]
  else if k = "shorts".data then ["shorts".data]
  else [k]

/-- Category/type matching, weight 0.25 (lines 245–270). -/
def categoryScore (p : SProduct) (q : SSearchQuery) : ℚ :=
  let nameL := lowerL p.name.data
  let catL := lowOpt p.category
  match asOpt q.category with
  | some qc =>
    if (catSynonyms (lowerL qc.data)).any
        (fun syn => hasSub syn nameL || hasSub syn catL) then 25/100
    else 0
  | none =>
    (queryTerms q).foldl (fun acc term =>
      if (catSynonyms term).any (fun syn => hasSub syn nameL || hasSub syn catL)
      then max acc (20/100) else acc) 0

/-- Query-term coverage, weight 0.20 (lines 272–276). -/
def termScore (p : SProduct) (q : SSearchQuery) : ℚ :=
  let terms := queryTerms q
  if terms.isEmpty then 0
  else ((terms.countP (fun t => hasSub t (productText p)) : ℚ) / (terms.length : ℚ))
    * (20/100)

/-- The fixed color synonym table (lines 280–290). -/
def colorSynonyms (k : List Char) : List (List Char) :=
  if k = "black".data then ["black".data, "noir".data, "svart".data]
  else if k = "white".data then ["white".data, "cream".data, "ivory".data, "vit".data]
  else if k = "blue".data then ["blue".data, "navy".data, "cobalt".data, "blå".data]
  else if k = "red".data then ["red".data, "crimson".data, "röd".data]
  else if k = "green".data then ["green".data, "olive".data, "grön".data]
  else if k = "gray".data then ["gray".data, "grey".data, "charcoal".data, "grå".data]
  else if k = "brown".data then ["brown".data, "tan".data, "camel".data, "brun".data]
  else if k = "pink".data then ["pink".data, "rose".data, "rosa".data]
  else if k = "beige".data then ["beige".data, "sand".data, "khaki".data]
  else [k]

/-- Color matching, weight 0.10 (lines 278–302). -/
def colorScore (p : SProduct) (q : SSearchQuery) : ℚ :=
  let colorL := lowOpt p.color
  let nameL := lowerL p.name.data
  match asOpt q.color with
  | some qc =>
    if (colorSynonyms (lowerL qc.data)).any
        (fun syn => hasSub syn colorL || hasSub syn nameL) then 10/100
    else 0
  | none =>
    (queryTerms q).foldl (fun acc term =>
      if hasSub term colorL then max acc (8/100) else acc) 0

/-- Style-tag overlap, weight 0.05 (lines 304–308). -/
def styleScore (p : SProduct) (q : SSearchQuery) : ℚ :=
  if q.style_tags.isEmpty then 0
  else ((q.style_tags.countP (fun tag => hasSub (lowerL tag.data) (productText p)) : ℚ)
      / (q.style_tags.length : ℚ)) * (5/100)

/-- Size availability, weight 0.05 (lines 310–313). -/
def sizeScore (p : SProduct) (q : SSearchQuery) : ℚ :=
  match asOpt q.size with
  | some s =>
    if p.sizes.isEmpty = false then
      if (p.sizes.map (fun x => upperL x.data)).contains (upperL s.data) then 5/100
      else 0
    else 0
  | none => 0

/-- `ShopAdapter.calculate_relevance`: the weighted sum, clamped at 1.0. -/
def calculate_relevance (p : SProduct) (q : SSearchQuery) : ℚ :=
  min (brandScore p q + categoryScore p q + termScore p q
    + colorScore p q + styleScore p q + sizeScore p q) 1

/-! ### Search orchestrator (`src/api/routes/search.py`, lines 104–117) -/

/-- One adapter's `search` outcome as observed by the orchestrator: either a
result list or a raised exception (timeouts included). -/
def AdapterOutcome := Except String (List SProduct)

/-- The `search_shop` wrapper: a raised exception is caught and converted to
an empty list; a successful search returns its list unchanged. -/
def search_shop (r : Except String (List SProduct)) : List SProduct :=
  match r with
  | Except.ok l => l
  | Except.error _ => []

/-- The fan-out and flattening of `search_products`: `asyncio.gather` keeps
the per-adapter lists in adapter order and the loop extends them into one
list. -/
def gather_searches (rs : List (Except String (List SProduct))) : List SProduct :=
  (rs.map search_shop).flatten

/-! ### Price monitoring (`src/monitor/price_checker.py`, `src/monitor/notifier.py`) -/

/-- The fields of a watchlist item dict read by `check_price` and
`process_price_checks`.  `current_price` models `item.get("current_price", 0)`
with the default already applied. -/
structure WatchItem where
  id : String
  shop_id : String
  product_id : String
  current_price : ℚ
  target_price : Option ℚ
  currency : String
  notify_any_drop : Bool
deriving DecidableEq, Repr

/-- `PriceCheck` (`src/monitor/price_checker.py`), without the timestamp. -/
structure PriceCheckR where
  old_price : ℚ
  new_price : ℚ
  price_dropped : Bool
  drop_amount : ℚ
  drop_percent : ℚ
  target_price_reached : Bool
deriving DecidableEq, Repr

/-- `PriceChecker.check_price`.  `adapterFound` models whether
`ShopRegistry.get_adapter` returned an adapter; `avail` models what the
awaited `adapter.check_availability` did: raised (`Except.error`) or returned
`(in_stock, current_price)`.  Any raised exception is caught and yields
`none`; a missing price yields `none`; the drop percentage divides by the
old price only under the `old_price > 0` guard. -/
def check_price (adapterFound : Bool) (avail : Except String (Bool × Option ℚ))
    (item : WatchItem) : Option PriceCheckR :=
  if adapterFound = false then none
  else
    match avail with
    | Except.error _ => none
    | Except.ok (_, none) => none
    | Except.ok (_, some current_price) =>
      let old_price := item.current_price
      let new_price := current_price
      let drop_amount := old_price - new_price
      let drop_percent := if old_price > 0 then drop_amount / old_price * 100 else 0
      let target_reached :=
        match item.target_price with
        | none => false
        | some t => decide (new_price ≤ t)
      some { old_price := old_price
             new_price := new_price
             price_dropped := decide (new_price < old_price)
             drop_amount := drop_amount
             drop_percent := drop_percent
             target_price_reached := target_reached }

/-- The kind of notification emitted by `process_price_checks`. -/
inductive NotificationKind
  | target
  | drop
deriving DecidableEq, Repr

/-- The notification decision of `process_price_checks`
(`src/monitor/notifier.py`, lines 416–424): target-price alerts take
priority; otherwise a drop alert requires a strict price drop and the
entry's `notify_any_drop` opt-in. -/
def decide_notification (check : PriceCheckR) (notify_any_drop : Bool) :
    Option NotificationKind :=
  if check.target_price_reached then some NotificationKind.target
  else if check.price_dropped && notify_any_drop then some NotificationKind.drop
  else none

/-! ### Concrete fixtures used by the theorems below -/

/-- The example product of the spec's scoring property:
name "Nike Sportswear Tech Fleece Hoodie Black", brand "Nike". -/
def nikeProduct : SProduct :=
  { name := "Nike Sportswear Tech Fleece Hoodie Black"
    brand := some "Nike"
    description := none
    category := none
    color := none
    sizes := [] }

/-- The example query of the spec's scoring property:
free text "Nike hoodie black", brand "Nike", category "hoodie". -/
def nikeQuery : SSearchQuery :=
  { query := "Nike hoodie black"
    category := some "hoodie"
    brand := some "Nike"
    color := none
    min_price := none
    max_price := none
    size := none
    gender := none
    style_tags := []
    limit := 20 }

/-- A 100-USD product with no category. -/
def prod100USD : CostProduct := { price := 100, currency := "USD", category := none }

/-- A 200-EUR product in the clothing bucket (category "jacket"). -/
def prod200EUR : CostProduct := { price := 200, currency := "EUR", category := some "jacket" }

/-- A 50-EUR product. -/
def prod50EUR : CostProduct := { price := 50, currency := "EUR", category := some "jacket" }

/-- A shop configuration whose free-shipping threshold is the falsy
`Decimal("0")`, with a flat cost of 49. -/
def cfgThreshold0 : ShopConfig :=
  { region := ShopRegion.EU
    currency := "SEK"
    free_shipping_threshold := some 0
    base_shipping_cost := some 49
    ships_to_sweden := true }

/-- A shop configuration with a free-shipping threshold of 500 and a flat
cost of 49. -/
def cfgThreshold500 : ShopConfig :=
  { region := ShopRegion.EU
    currency := "SEK"
    free_shipping_threshold := some 500
    base_shipping_cost := some 49
    ships_to_sweden := true }

/-- A non-EU shop in EUR with a flat shipping cost of 20. -/
def cfgNonEUFlat20 : ShopConfig :=
  { region := ShopRegion.NON_EU
    currency := "EUR"
    free_shipping_threshold := none
    base_shipping_cost := some 20
    ships_to_sweden := true }

/-- An EU shop in EUR with a flat shipping cost of 10. -/
def cfgEUFlat10 : ShopConfig :=
  { region := ShopRegion.EU
    currency := "EUR"
    free_shipping_threshold := none
    base_shipping_cost := some 10
    ships_to_sweden := true }

/-- A non-EU shop selling in USD with free shipping. -/
def cfgNonEUUSD : ShopConfig :=
  { region := ShopRegion.NON_EU
    currency := "USD"
    free_shipping_threshold := none
    base_shipping_cost := none
    ships_to_sweden := true }

/-- A watch item whose stored price is 0 (the division-guard case). -/
def itemZeroPrice : WatchItem :=
  { id := "w1"
    shop_id := "s1"
    product_id := "p1"
    current_price := 0
    target_price := none
    currency := "SEK"
    notify_any_drop := true }

/-- A watch item with a reached target price and `notify_any_drop = false`. -/
def itemTargetNoDrop : WatchItem :=
  { id := "w2"
    shop_id := "s1"
    product_id := "p2"
    current_price := 500
    target_price := some 450
    currency := "SEK"
    notify_any_drop := false }

/-- A price-check outcome with the target reached and a price drop. -/
def checkTargetDrop : PriceCheckR :=
  { old_price := 500
    new_price := 450
    price_dropped := true
    drop_amount := 50
    drop_percent := 10
    target_price_reached := true }

/-! ### Helper lemmas -/

theorem round2_is2dp (q : ℚ) : Is2dp (round2 q) := by
  unfold round2
  split
  · exact ⟨⌊q * 100 + 1/2⌋, rfl⟩
  · exact ⟨-⌊-q * 100 + 1/2⌋, by push_cast; ring⟩

theorem is2dp_round2_eq {q : ℚ} (h : Is2dp q) : round2 q = q := by
  obtain ⟨n, rfl⟩ := h
  unfold round2
  have h100 : ((n : ℚ) / 100) * 100 = (n : ℚ) := by field_simp
  have hfl : ∀ m : ℤ, ⌊(m : ℚ) + 1/2⌋ = m := by
    intro m
    rw [add_comm, Int.floor_add_int]
    norm_num
  split
  · rw [h100, hfl]
  · have hneg : -((n : ℚ) / 100) = ((-n : ℤ) : ℚ) / 100 := by push_cast; ring
    rw [hneg]
    have h100n : (((-n : ℤ) : ℚ) / 100) * 100 = ((-n : ℤ) : ℚ) := by field_simp
    rw [h100n, hfl]
    push_cast
    ring

theorem is2dp_zero : Is2dp 0 := ⟨0, by norm_num⟩

theorem is2dp_add {a b : ℚ} (ha : Is2dp a) (hb : Is2dp b) : Is2dp (a + b) := by
  obtain ⟨m, rfl⟩ := ha
  obtain ⟨n, rfl⟩ := hb
  exact ⟨m + n, by push_cast; ring⟩

theorem round2_zero : round2 0 = 0 := is2dp_round2_eq is2dp_zero

/-- Within the home region or the EU, `calculate_customs` is constantly zero. -/
theorem customs_home (pe se : ℚ) (r : ShopRegion) (cat : Option String)
    (h : r = ShopRegion.SE ∨ r = ShopRegion.EU) :
    calculate_customs pe se r cat = (0, 0) := by
  unfold calculate_customs
  rw [if_pos h]

/-- The shipping cost is a 2-decimal value whenever the configured flat cost is. -/
theorem shipping_is2dp (price : ℚ) (config : ShopConfig)
    (hb : Is2dp (config.base_shipping_cost.getD 0)) :
    Is2dp (calculate_shipping price config) := by
  unfold calculate_shipping
  split
  · exact is2dp_zero
  · split
    · split
      · exact is2dp_zero
      · exact hb
    · exact hb

/-! ### C1: non-EU customs computation -/

/-- C1: for `NON_EU` products, duty is 0 at or under the 150-EUR de-minimis
threshold on price+shipping, and otherwise is price times the
keyword-selected bucket rate (clothing 0.12, footwear 0.08, accessories
0.04, default 0.05, first bucket wins), rounded to 2 decimals; import VAT is
always (price + shipping + duty) × 0.25, rounded to 2 decimals.  In
particular price=100, shipping=10 gives duty 0 and VAT 27.50, and the
clothing-bucket category "jacket" with price=200, shipping=20 gives duty
24.00, VAT 61.00, and a landed total of 305.00. -/
theorem C1_nonEU_customs (price shipping : ℚ) (cat : Option String) :
    (price + shipping ≤ 150 →
      (calculate_customs price shipping ShopRegion.NON_EU cat).1 = 0) ∧
    (150 < price + shipping →
      (calculate_customs price shipping ShopRegion.NON_EU cat).1
        = round2 (price * customsRateFromCategory cat)) ∧
    ((calculate_customs price shipping ShopRegion.NON_EU cat).2
      = round2 ((price + shipping
          + (calculate_customs price shipping ShopRegion.NON_EU cat).1) * (25/100))) ∧
    customsRateFromCategory (some "jacket") = 12/100 ∧
    customsRateFromCategory (some "sneaker") = 8/100 ∧
    customsRateFromCategory (some "belt") = 4/100 ∧
    customsRateFromCategory (some "scarf") = 5/100 ∧
    customsRateFromCategory (some "dress watch") = 12/100 ∧
    calculate_customs 100 10 ShopRegion.NON_EU none = (0, 55/2) ∧
    calculate_customs 200 20 ShopRegion.NON_EU (some "jacket") = (24, 61) ∧
    (200 : ℚ) + 20 + (calculate_customs 200 20 ShopRegion.NON_EU (some "jacket")).1
      + (calculate_customs 200 20 ShopRegion.NON_EU (some "jacket")).2 = 305 := by
  have hreg : ¬(ShopRegion.NON_EU = ShopRegion.SE ∨ ShopRegion.NON_EU = ShopRegion.EU) := by
    decide
  have h2020 : calculate_customs 200 20 ShopRegion.NON_EU (some "jacket") = (24, 61) := by
    have hr : customsRateFromCategory (some "jacket") = 12/100 := rfl
    simp only [calculate_customs, if_neg hreg, hr]
    rw [if_neg (by norm_num : ¬((200 : ℚ) + 20 ≤ 150))]
    norm_num [round2]
  refine ⟨?_, ?_, ?_, rfl, rfl, rfl, rfl, rfl, ?_, h2020, ?_⟩
  · intro h
    simp only [calculate_customs, if_neg hreg]
    rw [if_pos h]
  · intro h
    simp only [calculate_customs, if_neg hreg]
    rw [if_neg (not_le.mpr h)]
  · simp only [calculate_customs, if_neg hreg]
  · simp only [calculate_customs, if_neg hreg]
    rw [if_pos (by norm_num : (100 : ℚ) + 10 ≤ 150)]
    norm_num [round2]
  · rw [h2020]
    norm_num

theorem C1_nonEU_customs_witness :
    (calculate_customs 30 10 ShopRegion.NON_EU none).1 = 0 ∧
    (calculate_customs 200 20 ShopRegion.NON_EU (some "jacket")).1
      = round2 (200 * customsRateFromCategory (some "jacket")) :=
  ⟨(C1_nonEU_customs 30 10 none).1 (by norm_num),
   (C1_nonEU_customs 200 20 (some "jacket")).2.1 (by norm_num)⟩

/-! ### C6: home-region / customs-union shops pay no duty or import VAT -/

/-- C6: when the shop's region is SE or EU, customs duty and import VAT are
both 0 and the total landed cost in the native currency is price + shipping
only (prices being 2-decimal monetary values). -/
theorem C6_home_region_cost (rates : String → String → ℚ) (p : CostProduct)
    (config : ShopConfig)
    (hreg : config.region = ShopRegion.SE ∨ config.region = ShopRegion.EU)
    (hp : Is2dp p.price) (hb : Is2dp (config.base_shipping_cost.getD 0)) :
    (calculate_total_cost rates p config).customs_cost = 0 ∧
    (calculate_total_cost rates p config).vat_cost = 0 ∧
    (calculate_total_cost rates p config).total_cost
      = p.price + calculate_shipping p.price config := by
  have hship := shipping_is2dp p.price config hb
  have hround : round2 (p.price + calculate_shipping p.price config)
      = p.price + calculate_shipping p.price config :=
    is2dp_round2_eq (is2dp_add hp hship)
  have hc := customs_home (price_eur_step rates p)
    (shipping_eur_step rates p (calculate_shipping p.price config))
    config.region p.category hreg
  simp [calculate_total_cost, hc, round2_zero, hround]

theorem C6_home_region_cost_witness :
    (calculate_total_cost get_exchange_rate prod50EUR cfgEUFlat10).customs_cost = 0 ∧
    (calculate_total_cost get_exchange_rate prod50EUR cfgEUFlat10).vat_cost = 0 ∧
    (calculate_total_cost get_exchange_rate prod50EUR cfgEUFlat10).total_cost
      = prod50EUR.price + calculate_shipping prod50EUR.price cfgEUFlat10 :=
  C6_home_region_cost get_exchange_rate prod50EUR cfgEUFlat10 (Or.inr rfl)
    ⟨5000, by norm_num [prod50EUR]⟩ ⟨1000, by norm_num [cfgEUFlat10]⟩

/-! ### C7: free-shipping threshold -/

/-- C7 counterexample: with a configured threshold of `Decimal("0")` (falsy in
Python) and a flat cost of 49, a price of 10 satisfies price ≥ threshold but
the computed shipping cost is 49, not 0 as the claim states. -/
theorem C7_counterexample :
    cfgThreshold0.ships_to_sweden = true ∧
    cfgThreshold0.free_shipping_threshold = some 0 ∧
    ((0 : ℚ) ≤ 10) ∧
    calculate_shipping 10 cfgThreshold0 = 49 ∧
    calculate_shipping 10 cfgThreshold0 ≠ 0 :=
  ⟨rfl, rfl, by norm_num, rfl, by norm_num [calculate_shipping, cfgThreshold0]⟩

/-- C7 amended: shipping is 0 when the shop cannot ship to Sweden; when it
can, shipping is 0 when a nonzero threshold is configured and price ≥ it,
and the flat base cost (0 when unset) when price < the threshold, when no
threshold is configured, or when the configured threshold is the falsy 0. -/
theorem C7_shipping_amended (price : ℚ) (config : ShopConfig) :
    (config.ships_to_sweden = false → calculate_shipping price config = 0) ∧
    (config.ships_to_sweden = true →
      (∀ t, config.free_shipping_threshold = some t → t ≠ 0 → t ≤ price →
        calculate_shipping price config = 0) ∧
      (∀ t, config.free_shipping_threshold = some t → price < t →
        calculate_shipping price config = config.base_shipping_cost.getD 0) ∧
      (config.free_shipping_threshold = some 0 →
        calculate_shipping price config = config.base_shipping_cost.getD 0) ∧
      (config.free_shipping_threshold = none →
        calculate_shipping price config = config.base_shipping_cost.getD 0)) := by
  constructor
  · intro h
    simp [calculate_shipping, h]
  · intro h
    refine ⟨?_, ?_, ?_, ?_⟩
    · intro t ht hne hle
      simp only [calculate_shipping, h, ht]
      rw [if_neg (by simp)]
      exact if_pos (And.intro hne hle)
    · intro t ht hlt
      simp only [calculate_shipping, h, ht]
      rw [if_neg (by simp)]
      exact if_neg (fun hc => absurd hlt (not_lt.mpr hc.2))
    · intro ht
      simp [calculate_shipping, h, ht]
    · intro ht
      simp [calculate_shipping, h, ht]

theorem C7_shipping_amended_witness :
    calculate_shipping 600 cfgThreshold500 = 0 :=
  ((C7_shipping_amended 600 cfgThreshold500).2 rfl).1 500 rfl (by norm_num) (by norm_num)

/-! ### C9: determinism of the cost calculator -/

/-- C9: the total-cost computation is deterministic — identical product,
configuration and exchange-rate-table inputs give identical values for every
monetary output field. -/
theorem C9_total_cost_deterministic (r1 r2 : String → String → ℚ)
    (p1 p2 : CostProduct) (c1 c2 : ShopConfig)
    (hr : r1 = r2) (hp : p1 = p2) (hc : c1 = c2) :
    (calculate_total_cost r1 p1 c1).shipping_cost
        = (calculate_total_cost r2 p2 c2).shipping_cost ∧
    (calculate_total_cost r1 p1 c1).customs_cost
        = (calculate_total_cost r2 p2 c2).customs_cost ∧
    (calculate_total_cost r1 p1 c1).vat_cost
        = (calculate_total_cost r2 p2 c2).vat_cost ∧
    (calculate_total_cost r1 p1 c1).total_cost
        = (calculate_total_cost r2 p2 c2).total_cost ∧
    (calculate_total_cost r1 p1 c1).total_cost_sek
        = (calculate_total_cost r2 p2 c2).total_cost_sek := by
  subst hr
  subst hp
  subst hc
  exact ⟨rfl, rfl, rfl, rfl, rfl⟩

theorem C9_total_cost_deterministic_witness :
    (calculate_total_cost get_exchange_rate prod200EUR cfgNonEUFlat20).total_cost
      = (calculate_total_cost get_exchange_rate prod200EUR cfgNonEUFlat20).total_cost :=
  (C9_total_cost_deterministic get_exchange_rate get_exchange_rate
    prod200EUR prod200EUR cfgNonEUFlat20 cfgNonEUFlat20 rfl rfl rfl).2.2.2.1

/-! ### C5: rounding placement in the total-cost chain -/

/-- C5 counterexample: the `price_eur` intermediate produced at line 205 of
`cost_calculator.py` for a 100-USD product under the static rate table is
2100/23 EUR, which is not a 2-decimal value — so not every intermediate
monetary value is rounded at the point it is produced. -/
theorem C5_counterexample :
    price_eur_step get_exchange_rate prod100USD
      ≠ round2 (price_eur_step get_exchange_rate prod100USD) := by
  have h1 : price_eur_step get_exchange_rate prod100USD = 100 * ((21/2)/(23/2)) := rfl
  have h : price_eur_step get_exchange_rate prod100USD = 2100/23 := by
    rw [h1]
    norm_num
  rw [h]
  norm_num [round2]

/-- C5 amended: customs duty and import VAT are rounded half-up to 2 decimal
places when produced (in EUR), and each monetary output field is rounded at
its final assignment (the SEK total only when the native currency is not
SEK); but the native→EUR and EUR→native conversion steps are not rounded at
the point they are produced — their rounding is deferred to the final
output fields. -/
theorem C5_rounding_amended (rates : String → String → ℚ) (p : CostProduct)
    (config : ShopConfig) (pe se : ℚ) (r : ShopRegion) (cat : Option String) :
    Is2dp (calculate_total_cost rates p config).shipping_cost ∧
    Is2dp (calculate_total_cost rates p config).customs_cost ∧
    Is2dp (calculate_total_cost rates p config).vat_cost ∧
    Is2dp (calculate_total_cost rates p config).total_cost ∧
    (p.currency ≠ "SEK" → Is2dp (calculate_total_cost rates p config).total_cost_sek) ∧
    Is2dp (calculate_customs pe se r cat).1 ∧
    Is2dp (calculate_customs pe se r cat).2 := by
  refine ⟨round2_is2dp _, round2_is2dp _, round2_is2dp _, round2_is2dp _, ?_, ?_, ?_⟩
  · intro hne
    simp only [calculate_total_cost, convert_to_sek, if_neg hne]
    exact round2_is2dp _
  · unfold calculate_customs
    split
    · exact is2dp_zero
    · dsimp only
      split
      · exact is2dp_zero
      · exact round2_is2dp _
  · unfold calculate_customs
    split
    · exact is2dp_zero
    · exact round2_is2dp _

theorem C5_rounding_amended_witness :
    Is2dp (calculate_total_cost get_exchange_rate prod100USD cfgNonEUUSD).total_cost ∧
    Is2dp (calculate_total_cost get_exchange_rate prod100USD cfgNonEUUSD).total_cost_sek :=
  ⟨(C5_rounding_amended get_exchange_rate prod100USD cfgNonEUUSD 0 0
      ShopRegion.NON_EU none).2.2.2.1,
   (C5_rounding_amended get_exchange_rate prod100USD cfgNonEUUSD 0 0
      ShopRegion.NON_EU none).2.2.2.2.1 (by decide)⟩

/-! ### C10: totality of the per-item price check -/

/-- On a successful availability check with a present price, `check_price`
returns exactly the record built by its body. -/
theorem check_price_ok_eq (item : WatchItem) (stock : Bool) (price : ℚ) :
    check_price true (Except.ok (stock, some price)) item
      = some { old_price := item.current_price
               new_price := price
               price_dropped := decide (price < item.current_price)
               drop_amount := item.current_price - price
               drop_percent := if item.current_price > 0
                 then (item.current_price - price) / item.current_price * 100 else 0
               target_price_reached := match item.target_price with
                 | none => false
                 | some t => decide (price ≤ t) } := rfl

/-- C10: the per-item price check is total — a stored last-known price of 0
takes the guarded branch and defines the drop percentage as 0 instead of
dividing by zero, and a raised exception during the availability check
yields `none` for that item instead of propagating. -/
theorem C10_check_price_total (item : WatchItem)
    (avail : Except String (Bool × Option ℚ)) (stock : Bool) (price : ℚ)
    (h0 : item.current_price = 0) (hav : avail = Except.ok (stock, some price)) :
    (∃ c, check_price true avail item = some c ∧ c.drop_percent = 0
        ∧ c.old_price = 0) ∧
    (∀ (found : Bool) (e : String) (it : WatchItem),
      check_price found (Except.error e) it = none) := by
  constructor
  · subst hav
    refine ⟨_, check_price_ok_eq item stock price, ?_, h0⟩
    dsimp only
    rw [h0]
    rw [if_neg (by norm_num : ¬((0 : ℚ) > 0))]
  · intro found e it
    cases found <;> simp [check_price]

theorem C10_check_price_total_witness :
    (∃ c, check_price true (Except.ok (true, some 5)) itemZeroPrice = some c
        ∧ c.drop_percent = 0 ∧ c.old_price = 0) ∧
    (∀ (found : Bool) (e : String) (it : WatchItem),
      check_price found (Except.error e) it = none) :=
  C10_check_price_total itemZeroPrice (Except.ok (true, some 5)) true 5 rfl rfl

/-! ### C4: notification decision -/

/-- C4: target-price notifications take priority; a drop notification
requires a strict price decrease and the `notify_any_drop` opt-in; otherwise
no notification is emitted.  In checks produced by `check_price`,
`price_dropped` holds exactly when the new price is strictly below the old,
so entries with unchanged or increased prices and an unreached target never
notify, and an entry with `notify_any_drop = false` still notifies when the
target is reached. -/
theorem C4_notification_decision (check : PriceCheckR) (nad : Bool)
    (found : Bool) (avail : Except String (Bool × Option ℚ)) (item : WatchItem) :
    (check.target_price_reached = true →
      decide_notification check nad = some NotificationKind.target) ∧
    (check.target_price_reached = false → check.price_dropped = true → nad = true →
      decide_notification check nad = some NotificationKind.drop) ∧
    (check.target_price_reached = false →
      (check.price_dropped = false ∨ nad = false) →
      decide_notification check nad = none) ∧
    (∀ c, check_price found avail item = some c →
      (c.price_dropped = true ↔ c.new_price < c.old_price)) ∧
    (∀ c, check_price found avail item = some c →
      c.target_price_reached = false → c.old_price ≤ c.new_price →
      decide_notification c nad = none) := by
  have hfound : ∀ (c : PriceCheckR), check_price found avail item = some c →
      found = true ∧ ∃ st pr, avail = Except.ok (st, some pr) := by
    intro c hc
    cases found with
    | false => simp [check_price] at hc
    | true =>
      cases avail with
      | error e => simp [check_price] at hc
      | ok v =>
        obtain ⟨st, pr⟩ := v
        cases pr with
        | none => simp [check_price] at hc
        | some q => exact ⟨rfl, st, q, rfl⟩
  refine ⟨?_, ?_, ?_, ?_, ?_⟩
  · intro h
    simp [decide_notification, h]
  · intro h1 h2 h3
    simp [decide_notification, h1, h2, h3]
  · intro h1 h2
    cases h2 with
    | inl h => simp [decide_notification, h1, h]
    | inr h => simp [decide_notification, h1, h]
  · intro c hc
    obtain ⟨hf, st, pr, hav⟩ := hfound c hc
    subst hf
    subst hav
    rw [check_price_ok_eq] at hc
    obtain rfl := Option.some.inj hc
    simp
  · intro c hc ht hle
    obtain ⟨hf, st, pr, hav⟩ := hfound c hc
    subst hf
    subst hav
    rw [check_price_ok_eq] at hc
    obtain rfl := Option.some.inj hc
    dsimp only at ht hle ⊢
    have hd : decide (pr < item.current_price) = false := by
      simp [not_lt.mpr hle]
    simp [decide_notification, ht, hd]

theorem C4_notification_decision_witness :
    decide_notification checkTargetDrop false = some NotificationKind.target :=
  (C4_notification_decision checkTargetDrop false true
    (Except.ok (true, some 450)) itemTargetNoDrop).1 rfl

/-! ### C3: concurrent fan-out tolerates one failing adapter -/

/-- C3: if one adapter's search raises (or times out) while the others
succeed, nothing escapes the orchestrator (`gather_searches` is a total
function), the failing adapter contributes exactly the empty list, and the
aggregated candidate list is the concatenation of all succeeding adapters'
results, in order. -/
theorem C3_fanout_one_failing_adapter (pre post : List (List SProduct)) (e : String) :
    gather_searches (pre.map Except.ok ++ Except.error e :: post.map Except.ok)
      = pre.flatten ++ post.flatten := by
  have hok : ∀ l : List (List SProduct), (l.map Except.ok).map search_shop = l := by
    intro l
    rw [List.map_map]
    exact List.map_id'' (fun x => rfl) l
  unfold gather_searches
  rw [List.map_append, List.map_cons, hok, hok]
  simp [search_shop]

/-! ### Score component bounds -/

theorem foldl_preserves {α : Type} (f : ℚ → α → ℚ) (P : ℚ → Prop)
    (hf : ∀ a x, P a → P (f a x)) :
    ∀ (l : List α) (a : ℚ), P a → P (List.foldl f a l) := by
  intro l
  induction l with
  | nil => intro a ha; exact ha
  | cons x xs ih =>
    intro a ha
    rw [List.foldl_cons]
    exact ih (f a x) (hf a x ha)

theorem brandScore_nonneg (p : SProduct) (q : SSearchQuery) : 0 ≤ brandScore p q := by
  unfold brandScore
  cases hqb : asOpt q.brand with
  | some qb =>
    dsimp only
    split
    · split
      · norm_num
      · split
        · norm_num
        · exact le_rfl
    · exact le_rfl
  | none =>
    dsimp only
    refine foldl_preserves _ (fun a => 0 ≤ a) ?_ _ 0 le_rfl
    intro a x ha
    split
    · exact le_trans ha (le_max_left _ _)
    · split
      · exact le_trans ha (le_max_left _ _)
      · exact ha

theorem categoryScore_nonneg (p : SProduct) (q : SSearchQuery) :
    0 ≤ categoryScore p q := by
  unfold categoryScore
  cases hqc : asOpt q.category with
  | some qc =>
    dsimp only
    split
    · norm_num
    · exact le_rfl
  | none =>
    dsimp only
    refine foldl_preserves _ (fun a => 0 ≤ a) ?_ _ 0 le_rfl
    intro a x ha
    split
    · exact le_trans ha (le_max_left _ _)
    · exact ha

theorem termScore_nonneg (p : SProduct) (q : SSearchQuery) : 0 ≤ termScore p q := by
  unfold termScore
  dsimp only
  split
  · exact le_rfl
  · exact mul_nonneg (div_nonneg (Nat.cast_nonneg _) (Nat.cast_nonneg _)) (by norm_num)

theorem colorScore_nonneg (p : SProduct) (q : SSearchQuery) : 0 ≤ colorScore p q := by
  unfold colorScore
  cases hqc : asOpt q.color with
  | some qc =>
    dsimp only
    split
    · norm_num
    · exact le_rfl
  | none =>
    dsimp only
    refine foldl_preserves _ (fun a => 0 ≤ a) ?_ _ 0 le_rfl
    intro a x ha
    split
    · exact le_trans ha (le_max_left _ _)
    · exact ha

theorem styleScore_nonneg (p : SProduct) (q : SSearchQuery) : 0 ≤ styleScore p q := by
  unfold styleScore
  split
  · exact le_rfl
  · exact mul_nonneg (div_nonneg (Nat.cast_nonneg _) (Nat.cast_nonneg _)) (by norm_num)

theorem sizeScore_nonneg (p : SProduct) (q : SSearchQuery) : 0 ≤ sizeScore p q := by
  unfold sizeScore
  cases hs : asOpt q.size with
  | some s =>
    dsimp only
    split
    · split
      · norm_num
      · exact le_rfl
    · exact le_rfl
  | none => exact le_rfl

/-! ### C2: relevance score is bounded and deterministic -/

/-- C2: for every product and query, `calculate_relevance` returns a score in
`[0, 1]`, and it is a pure function — identical inputs give the identical
score (its embedding is side-effect-free by construction). -/
theorem C2_relevance_bounded (p : SProduct) (q : SSearchQuery) :
    0 ≤ calculate_relevance p q ∧ calculate_relevance p q ≤ 1 ∧
    (∀ p2 q2, p = p2 → q = q2 → calculate_relevance p q = calculate_relevance p2 q2) := by
  refine ⟨?_, ?_, ?_⟩
  · unfold calculate_relevance
    apply le_min
    · have h1 := brandScore_nonneg p q
      have h2 := categoryScore_nonneg p q
      have h3 := termScore_nonneg p q
      have h4 := colorScore_nonneg p q
      have h5 := styleScore_nonneg p q
      have h6 := sizeScore_nonneg p q
      linarith
    · norm_num
  · unfold calculate_relevance
    exact min_le_right _ _
  · intro p2 q2 h1 h2
    subst h1
    subst h2
    rfl

theorem C2_relevance_bounded_witness :
    0 ≤ calculate_relevance nikeProduct nikeQuery ∧
    calculate_relevance nikeProduct nikeQuery ≤ 1 ∧
    calculate_relevance nikeProduct nikeQuery
      = calculate_relevance nikeProduct nikeQuery :=
  ⟨(C2_relevance_bounded nikeProduct nikeQuery).1,
   (C2_relevance_bounded nikeProduct nikeQuery).2.1,
   (C2_relevance_bounded nikeProduct nikeQuery).2.2 nikeProduct nikeQuery rfl rfl⟩

/-! ### C8: strong-match score -/

/-- C8 counterexample: the query "Nike hoodie black" with brand "Nike" and
category "hoodie" against the product "Nike Sportswear Tech Fleece Hoodie
Black" (brand "Nike") scores exactly 0.80 — brand 0.35 + category 0.25 +
full term coverage 0.20, with no color filter in the query the color weight
contributes 0 — which is below the claimed 0.9. -/
theorem C8_counterexample :
    calculate_relevance nikeProduct nikeQuery = 4/5 ∧
    ¬(9/10 ≤ calculate_relevance nikeProduct nikeQuery) := by
  have hb : brandScore nikeProduct nikeQuery = 35/100 := rfl
  have hc : categoryScore nikeProduct nikeQuery = 25/100 := rfl
  have hcol : colorScore nikeProduct nikeQuery = 0 := rfl
  have hsty : styleScore nikeProduct nikeQuery = 0 := rfl
  have hsz : sizeScore nikeProduct nikeQuery = 0 := rfl
  have hcnt : (queryTerms nikeQuery).countP
      (fun t => hasSub t (productText nikeProduct)) = 3 := by decide
  have hlen : (queryTerms nikeQuery).length = 3 := by decide
  have hne : (queryTerms nikeQuery).isEmpty = false := by decide
  have ht : termScore nikeProduct nikeQuery = 1/5 := by
    unfold termScore
    dsimp only
    rw [hne]
    rw [if_neg (by simp)]
    rw [hcnt, hlen]
    norm_num
  have hrel : calculate_relevance nikeProduct nikeQuery = 4/5 := by
    unfold calculate_relevance
    rw [hb, hc, ht, hcol, hsty, hsz]
    rw [min_eq_left (by norm_num)]
    norm_num
  exact ⟨hrel, by rw [hrel]; norm_num⟩

/-- C8 amended: an exact brand match, a category match and full free-text
term coverage guarantee a score of at least 0.8 (not 0.9): those three
components contribute exactly 0.35 + 0.25 + 0.20, and the remaining color,
style and size components are nonnegative.  The example query scores
exactly 0.8; reaching 0.9 additionally requires a color match. -/
theorem C8_strong_match_amended (p : SProduct) (q : SSearchQuery) (qb qc : String)
    (hqb : asOpt q.brand = some qb)
    (hbe : (lowOpt p.brand).isEmpty = false)
    (hbeq : lowerL qb.data = lowOpt p.brand)
    (hqc : asOpt q.category = some qc)
    (hcm : (catSynonyms (lowerL qc.data)).any
      (fun syn => hasSub syn (lowerL p.name.data) || hasSub syn (lowOpt p.category))
        = true)
    (hterms : (queryTerms q).isEmpty = false)
    (hcov : ∀ t ∈ queryTerms q, hasSub t (productText p) = true) :
    8/10 ≤ calculate_relevance p q := by
  have hb : brandScore p q = 35/100 := by
    unfold brandScore
    rw [hqb]
    dsimp only
    rw [if_pos hbe, if_pos hbeq]
  have hc : categoryScore p q = 25/100 := by
    unfold categoryScore
    rw [hqc]
    dsimp only
    rw [if_pos hcm]
  have hlen : ((queryTerms q).length : ℚ) ≠ 0 := by
    have hnil : queryTerms q ≠ [] := by
      intro hq
      rw [hq] at hterms
      simp at hterms
    have := List.length_pos.mpr hnil
    exact_mod_cast Nat.pos_iff_ne_zero.mp this
  have ht : termScore p q = 20/100 := by
    unfold termScore
    dsimp only
    rw [hterms]
    rw [if_neg (by simp)]
    rw [List.countP_eq_length.mpr hcov]
    rw [div_self hlen]
    norm_num
  have h4 := colorScore_nonneg p q
  have h5 := styleScore_nonneg p q
  have h6 := sizeScore_nonneg p q
  unfold calculate_relevance
  rw [hb, hc, ht]
  apply le_min
  · linarith
  · norm_num

theorem C8_strong_match_amended_witness :
    8/10 ≤ calculate_relevance nikeProduct nikeQuery :=
  C8_strong_match_amended nikeProduct nikeQuery "Nike" "hoodie"
    rfl (by decide) (by decide) rfl (by decide) (by decide) (by decide)
